import Mathlib

/-!
A shallow embedding of `bti.py` (the BDSS TAR Index retrieval script).

Python strings are modeled as Lean `String`/`List Char`; Python exceptions are
modeled with `Except PyErr`; the local sqlite index, the remote BTI API, the
filesystem and the network are modeled as explicit data passed to the embedded
functions.  Each definition mirrors one function of the source file and is kept
executable so that theorems can be checked on concrete inputs.
-/

/-- Python exception kinds that the embedded code can raise. -/
inductive PyErr where
  | typeError
  | indexError
  | attributeError
  | valueError
  deriving DecidableEq, Repr

/-- A fragment of the Python value universe, used to model dynamically typed
expressions such as the tuple-plus-string concatenation in `WorkerProcess.run`. -/
inductive PyVal where
  | str (s : String)
  | bool (b : Bool)
  | tuple (elems : List PyVal)

/-- Python `+` on `PyVal`: string concatenation and tuple concatenation are
defined; every mixed combination raises `TypeError`, exactly as in CPython. -/
def pyAdd : PyVal → PyVal → Except PyErr PyVal
  | PyVal.str a, PyVal.str b => Except.ok (PyVal.str (a ++ b))
  | PyVal.tuple a, PyVal.tuple b => Except.ok (PyVal.tuple (a ++ b))
  | _, _ => Except.error PyErr.typeError

/-- Digit test on the code point, mirroring the regex class `\d` (ASCII inputs). -/
def pyIsDigit (c : Char) : Bool := decide (48 ≤ c.toNat ∧ c.toNat ≤ 57)

/-- Python `str.upper()` on one character (basic latin, which covers the
identifiers this program handles). -/
def pyUpperChar (c : Char) : Char :=
  if 97 ≤ c.toNat ∧ c.toNat ≤ 122 then Char.ofNat (c.toNat - 32) else c

/-- Membership in the regex class `\s` for the ASCII range. -/
def isPySpace (c : Char) : Bool :=
  c = ' ' ∨ c = '\t' ∨ c = '\n' ∨ c = '\r' ∨ c = '\x0b' ∨ c = '\x0c'

/-- Removal of whitespace, `re.sub(r'\s', '', s)`. -/
def stripWs (l : List Char) : List Char := l.filter (fun c => ¬ isPySpace c)

/-- True when the list starts with a digit. -/
def digitLeads : List Char → Bool
  | [] => false
  | c :: _ => pyIsDigit c

/-- One left-to-right pass of `re.sub(r'U|S|B\d+|\.|/|,', '', s)` (with
`stripB = true`) or of `re.sub(r'U|S|\.|/|,', '', s)` (with `stripB = false`).
The flag `inRun` is true while a digit run following a removed `B` is being
swallowed, which matches the greedy `B\d+` alternative of the regex. -/
def reduceAux (stripB : Bool) : Bool → List Char → List Char
  | _, [] => []
  | inRun, c :: rest =>
    if inRun ∧ pyIsDigit c then reduceAux stripB true rest
    else if c = 'U' ∨ c = 'S' ∨ c = '.' ∨ c = '/' ∨ c = ',' then reduceAux stripB false rest
    else if stripB ∧ c = 'B' ∧ digitLeads rest then
      reduceAux stripB true rest
    else c :: reduceAux stripB false rest

/-- The shared reduction of `bti.py`: uppercase, strip whitespace, then strip
`U`, `S`, optionally `B`+digits (patent kind codes), periods, slashes, commas.
Mirrors line 171 / 539 / 553 / 565 of the source. -/
def reduceRef (stripB : Bool) (s : String) : String :=
  String.mk (reduceAux stripB false (stripWs (s.data.map pyUpperChar)))

/-- Decimal value of a digit string, as used by Python `int` on its digits. -/
def digitsToNat (l : List Char) : Nat := l.foldl (fun acc c => 10 * acc + (c.toNat - 48)) 0

/-- Python `int(s)` for the strings this program builds: succeeds on a nonempty
all-digit string, raises `ValueError` otherwise. -/
def pyIntL (l : List Char) : Except PyErr Nat :=
  if l ≠ [] ∧ l.all pyIsDigit then Except.ok (digitsToNat l) else Except.error PyErr.valueError

/-- Helper for `pyCommaFmt`: walks the reversed digit list inserting a comma
after every third digit. -/
def commaRev : List Char → Nat → List Char
  | [], _ => []
  | c :: rest, k =>
    if k = 3 then c :: (if rest = [] then [] else ',' :: commaRev rest 1)
    else c :: commaRev rest (k + 1)

/-- Python format `f'{n:,}'`: decimal digits grouped in threes by commas. -/
def pyCommaFmt (n : Nat) : String :=
  String.mk ((commaRev (toString n).data.reverse 1).reverse)

/-- Python `str.title()` for the ASCII range: the first letter of each
alphabetic word is uppercased. -/
def pyTitleAux : Bool → List Char → List Char
  | _, [] => []
  | prevAlpha, c :: rest =>
    if (65 ≤ c.toNat ∧ c.toNat ≤ 90) ∨ (97 ≤ c.toNat ∧ c.toNat ≤ 122) then
      (if prevAlpha then c else pyUpperChar c) :: pyTitleAux true rest
    else c :: pyTitleAux false rest

/-- Python `str.title()` (the program only applies it to the lowercase words
`patent`, `publication`, `application`). -/
def pyTitle (s : String) : String := String.mk (pyTitleAux false s.data)

/-- Python slice `s[a:b]`. -/
def pySlice (s : String) (a b : Nat) : String := String.mk ((s.data.drop a).take (b - a))

/-- Python slice `s[a:]`. -/
def pySliceFrom (s : String) (a : Nat) : String := String.mk (s.data.drop a)

/-- Python `s.rjust(k, c)`. -/
def padLeft (l : List Char) (k : Nat) (c : Char) : List Char :=
  List.replicate (k - l.length) c ++ l

/-- Python `s.replace('/', '').replace(',', '')`. -/
def stripSlashComma (s : String) : String :=
  String.mk (s.data.filter (fun c => c ≠ '/' ∧ c ≠ ','))

/-- The prefix alternatives of the patent-number regex
`(D|PP|RE|H|T|X|RX|AI)?(\d+)`, in the order the regex engine tries them. -/
def pnAlternatives : List (List Char) :=
  [['D'], ['P', 'P'], ['R', 'E'], ['H'], ['T'], ['X'], ['R', 'X'], ['A', 'I']]

/-- Attempt to match `(D|PP|RE|H|T|X|RX|AI)?(\d+)` at the head of `l`:
each named alternative is tried in order and must be followed by at least one
digit; otherwise the empty alternative is tried.  The digit group is greedy. -/
def pnTryAt (l : List Char) : Option (String × List Char) :=
  match pnAlternatives.findSome? (fun p =>
    if l.take p.length = p ∧ digitLeads (l.drop p.length) then
      some (String.mk p, (l.drop p.length).takeWhile pyIsDigit)
    else none) with
  | some r => some r
  | none => if digitLeads l then some ("", l.takeWhile pyIsDigit) else none

/-- `re.search` for the pattern above: leftmost position at which a match
starts, mirroring line 554 of the source. -/
def pnSearch : List Char → Option (String × List Char)
  | [] => none
  | c :: rest =>
    match pnTryAt (c :: rest) with
    | some r => some r
    | none => pnSearch rest

/-- `BDSS_Interface.format_patent_number` (lines 549-559): reduce the input,
search for an optional prefix plus digits, and print the digits as an integer
(comma-grouped when human readable).  Returns `none` when the regex does not
match. -/
def format_patent_number (number : String) (human_readable : Bool) : Option String :=
  let n := reduceRef true number
  match pnSearch n.data with
  | none => none
  | some (pre, digits) =>
    some (pre ++ (if human_readable then pyCommaFmt (digitsToNat digits) else toString (digitsToNat digits)))

/-- `BDSS_Interface.format_publication_number` (lines 561-570): requires at
least 11 characters after reduction, appends the default kind code `A1` to an
11-character body, and renders `YYYY/NNNNNNN KK` when human readable. -/
def format_publication_number (number : String) (human_readable : Bool) : Option String :=
  let n := reduceRef false number
  if n.length < 11 then none
  else
    let n := if n.length = 11 then n ++ "A1" else n
    if human_readable then
      some (pySlice n 0 4 ++ "/" ++ pySlice n 4 11 ++ " " ++ pySliceFrom n 11)
    else some n

/-- `BDSS_Interface.format_application_number` (lines 535-547).  On an input
whose reduction is empty, the subscript `number[0]` raises `IndexError`.  The
design branch keeps `application_number[0:3]` and `application_number[4:6]`,
exactly as written in the source (the character at index 3 is dropped). -/
def format_application_number (number : String) (human_readable : Bool) : Except PyErr String :=
  let n := reduceRef false number
  match n.data with
  | [] => Except.error PyErr.indexError
  | c :: rest =>
    let n' :=
      if c = 'D' then
        let a := padLeft (rest.dropWhile (fun x => x = '0')) 6 '0'
        "29/" ++ String.mk (a.take 3) ++ "," ++ String.mk ((a.drop 4).take 2)
      else if n.length = 8 then
        pySlice n 0 2 ++ "/" ++ pySlice n 2 5 ++ "," ++ pySliceFrom n 5
      else n
    Except.ok (if human_readable then n' else stripSlashComma n')

/-- Exception sequencing: run the continuation on a normal value, propagate a
raised exception.  This is how one Python statement flows into the next. -/
def exSeq {α β : Type} (e : Except PyErr α) (k : α → Except PyErr β) : Except PyErr β :=
  match e with
  | Except.error err => Except.error err
  | Except.ok a => k a

/-- The design/plant/reissue prefix letters tested by the type-inference guard
(line 177). -/
def designLetters : List Char := ['P', 'D', 'T', 'A', 'R', 'X']

/-- `all(reduced_ref.startswith(c) is False for c in ['P','D','T','A','R','X'])`. -/
def noDesignLetter (l : List Char) : Prop := ∀ c ∈ designLetters, l.head? ≠ some c

instance (l : List Char) : Decidable (noDesignLetter l) := by
  unfold noDesignLetter; infer_instance

/-- `BDSS_Interface.determine_reference_type` (lines 145-187): reduce the
reference, infer the document type when none is given, then regularize the
identifier with the per-type formatter.  The result mirrors the Python triple
`(success, reduced_ref, document_type)`; exceptions escaping the formatters
(see `format_application_number`) and `int()` propagate. -/
def determine_reference_type (ref : String) (document_type : Option String) :
    Except PyErr (Bool × Option String × Option String) :=
  let reduced := reduceRef true ref
  exSeq
    (match document_type with
     | some t => Except.ok t
     | none =>
       if 11 ≤ reduced.length then Except.ok "publication"
       else if '/' ∈ ref.data then Except.ok "application"
       else if reduced.length = 8 ∧ noDesignLetter reduced.data then
         exSeq (pyIntL (reduced.data.take 2))
           (fun v => Except.ok (if 12 ≤ v then "application" else "patent"))
       else Except.ok "patent")
    (fun dt =>
      exSeq
        (if dt = "patent" then Except.ok (format_patent_number reduced false)
         else if dt = "publication" then Except.ok (format_publication_number reduced false)
         else if dt = "application" then
           exSeq (format_application_number reduced false) (fun r => Except.ok (some r))
         else Except.ok (some reduced))
        (fun formatted =>
          match formatted with
          | none => Except.ok (false, none, none)
          | some r => Except.ok (true, some r, some dt)))

/-- `BDSS_Interface.determine_local_filename` (lines 364-391).  Note that the
third branch of the source compares against the capitalized string
`'Application'`, so the lowercase type `'application'` falls through to the
final `return None`. -/
def determine_local_filename (ref : String) (document_type : String) :
    Except PyErr (Option String) :=
  if document_type = "patent" then
    Except.ok ((format_patent_number ref true).map (fun r => "U.S. Patent No. " ++ r ++ ".pdf"))
  else if document_type = "publication" then
    Except.ok ((format_publication_number ref false).map (fun r => "U.S. Pub. No. " ++ r ++ ".pdf"))
  else if document_type = "Application" then
    exSeq (format_application_number ref false)
      (fun r => Except.ok (some ("U.S. App. No. " ++ r ++ ".pdf")))
  else Except.ok none

/-- A row of the `patents` or `publications` table joined with its `_fts5`
companion: the native document number, the application number it was filed
under, the compact date code and the byte location of the PDF. -/
structure IndexRow where
  number : String
  application_number : String
  date_code : String
  offset : Nat
  size : Nat
  deriving DecidableEq, Repr

/-- A row of the `date_codes` table, mapping a compact code to the year and
date strings used to expand the archive URL template. -/
structure DateCode where
  code : String
  year_part : String
  date_part : String
  deriving DecidableEq, Repr

/-- The local `bti.sqlite` index. -/
structure LocalDB where
  publications : List IndexRow
  patents : List IndexRow
  date_codes : List DateCode
  deriving Repr

/-- One sqlite query of `retrieve_ref_from_database`: the first row of the
table whose matched column (`application_number` when `useApp`, else `number`)
equals the key and whose `date_code` joins against `date_codes`, projected to
`(number, year_part, date_part, offset, size)`.  The fts5 `match` on an
all-digit key is an exact term match. -/
def lookupRow (rows : List IndexRow) (dcs : List DateCode) (useApp : Bool) (key : String) :
    Option (String × String × String × Nat × Nat) :=
  rows.findSome? (fun r =>
    if (if useApp then r.application_number else r.number) = key then
      (dcs.find? (fun dc => dc.code = r.date_code)).map
        (fun dc => (r.number, dc.year_part, dc.date_part, r.offset, r.size))
    else none)

/-- The shape shared by both index backends: either a resolved location (whose
fields may individually be absent, as with a sparse API response) or an error
message.  Mirrors the 6-tuples returned at lines 246, 252, 276 and 278. -/
inductive IndexRes where
  | ok (rref : Option String) (dtype : Option String) (url : Option String)
      (offset : Option Nat) (size : Option Nat)
  | err (msg : String)
  deriving DecidableEq, Repr

/-- Expansion of `urls['patent'].replace('YEAR', y).replace('DATE', d)`. -/
def patent_url (y d : String) : String :=
  "https://bulkdata.uspto.gov/data/patent/grant/multipagepdf/" ++ y ++ "/grant_pdf_" ++ d ++ ".tar"

/-- Expansion of `urls['publication'].replace('YEAR', y).replace('DATE', d)`. -/
def publication_url (y d : String) : String :=
  "https://bulkdata.uspto.gov/data/patent/application/multipagepdf/" ++ y ++ "/app_pdf_" ++ d ++ ".tar"

/-- Python `ref.replace(',', '').replace('/', '')` (line 225). -/
def removeCommaSlash (s : String) : String :=
  String.mk (s.data.filter (fun c => c ≠ ',' ∧ c ≠ '/'))

/-- The matched-column name, for the probe log. -/
def matchColumn (useApp : Bool) : String := if useApp then "application_number" else "number"

/-- `BDSS_Interface.retrieve_ref_from_database` (lines 189-252).  In addition
to the Python return value, the embedding returns the list of
`(table, column)` probes it issued, in order.  A `none` reference raises
`AttributeError` (`None.replace`), which is what the broken failure check in
`fetch` (line 112, `result is None`) actually leads to. -/
def retrieve_ref_from_database (ref : Option String) (document_type : Option String)
    (db : LocalDB) : Except PyErr (IndexRes × List (String × String)) :=
  match ref with
  | none => Except.error PyErr.attributeError
  | some s =>
    let reduced := removeCommaSlash s
    let probe1 := document_type = some "application" ∨ document_type = some "publication"
    let useApp1 := document_type = some "application"
    let r1 := if probe1 then lookupRow db.publications db.date_codes useApp1 reduced else none
    let dt1 := if probe1 ∧ r1.isSome then some "publication" else document_type
    let probe2 := dt1 = some "application" ∨ dt1 = some "patent"
    let useApp2 := dt1 = some "application"
    let r2 := if probe2 then lookupRow db.patents db.date_codes useApp2 reduced else none
    let dt2 := if probe2 ∧ r2.isSome then some "patent" else dt1
    let rFinal := if probe2 then r2 else r1
    let probes := (if probe1 then [("publications", matchColumn useApp1)] else []) ++
                  (if probe2 then [("patents", matchColumn useApp2)] else [])
    match rFinal with
    | none => Except.ok (IndexRes.err ("No data found for " ++ s ++ "."), probes)
    | some (n, y, d, o, sz) =>
      let url := if dt2 = some "patent" then patent_url y d else publication_url y d
      Except.ok (IndexRes.ok (some n) dt2 (some url) (some o) (some sz), probes)

/-- The record of side-effecting calls made by one run of `fetch`, used to
state the caching claims. -/
structure CallLog where
  dbQueries : Nat
  apiQueries : Nat
  bdssFetches : Nat
  deriving DecidableEq, Repr

/-- The environment one run of `fetch` executes in: whether `bti.sqlite`
exists next to the script, the local index, the remote BTI API modeled as a
function of the query parameters, the set of files present in the documents
folder, and the outcome of a BDSS range download. -/
structure FetchEnv where
  dbFileExists : Bool
  db : LocalDB
  api : Option String → Option String → IndexRes
  cacheFiles : List String
  bdssOk : Bool
  bdssMsg : String

/-- `BDSS_Interface.fetch` (lines 59-141) together with its call log.

Notes kept from the source: the guard `if result is None` (line 112) never
fires because `determine_reference_type` returns `False` on failure, so a
failed normalization flows into the index lookup; the guard
`if local_filename is False` (line 132) never fires because
`determine_local_filename` returns `None` on failure, so
`os.path.join(documents_path, None)` raises `TypeError`.  On an index-backend
failure the Python function returns the backend 6-tuple whose first three
components are the triple modeled here. -/
def fetch (env : FetchEnv) (documents_path ref : String) (document_type : Option String) :
    Except PyErr ((Bool × String × Option String) × CallLog) :=
  exSeq (determine_reference_type ref document_type) (fun res3 =>
    exSeq
      (if env.dbFileExists then
        exSeq (retrieve_ref_from_database res3.2.1 res3.2.2 env.db)
          (fun rp => Except.ok (rp.1, CallLog.mk 1 0 0))
       else Except.ok (env.api res3.2.1 res3.2.2, CallLog.mk 0 1 0))
      (fun irlog =>
        match irlog with
        | (IndexRes.err m, log) => Except.ok ((false, m, none), log)
        | (IndexRes.ok orref odt _url _off _sz, log) =>
          match orref, odt with
          | some rref2, some dt2 =>
            exSeq (determine_local_filename rref2 dt2)
              (fun lf =>
                match lf with
                | none => Except.error PyErr.typeError
                | some f =>
                  let full := documents_path ++ "/" ++ f
                  if env.cacheFiles.contains full then
                    Except.ok ((true, pyTitle dt2 ++ " " ++ ref ++ " already exists.",
                      some full), log)
                  else
                    Except.ok ((env.bdssOk, env.bdssMsg, some full),
                               { log with bdssFetches := log.bdssFetches + 1 }))
          | _, _ => Except.ok ((false, "No index entry for " ++ ref ++ ".", none), log)))

/-- The fixed chunk size of `retrieve_document_from_bdss` (line 309). -/
def bdssChunk : Nat := 65536

/-- The read loop of `BDSS_Interface.retrieve_document_from_bdss`
(lines 313-319).  `remaining` is the number of bytes the range response still
holds, so `response.read(chunk_size)` returns `min bdssChunk remaining` bytes;
`written` is the size of the local file (only nonempty chunks are written),
`received` the cumulative bytes read, `chunks` the value of `num_chunks`.
The loop breaks when a short chunk arrives or `num_chunks * chunk_size`
exceeds the declared size.  The result is the final `(written, received,
chunks)`. -/
def bdssLoop (size remaining written received chunks : Nat) : Nat × Nat × Nat :=
  let data := min bdssChunk remaining
  let written' := if 0 < data then written + data else written
  let received' := received + data
  let chunks' := chunks + 1
  if data < bdssChunk ∨ size < chunks' * bdssChunk then (written', received', chunks')
  else bdssLoop size (remaining - bdssChunk) written' received' chunks'
termination_by remaining
decreasing_by
  simp only [bdssChunk] at *
  omega

/-- The break condition of the claim, phrased on the abstract run: after `m`
chunks the loop has received `min N (m * bdssChunk)` bytes in total, the
`m`-th chunk is short when fewer than `bdssChunk` bytes were left for it, and
the cumulative bytes read exceed the declared `size`. -/
def bdssHalt (N size m : Nat) : Prop :=
  min bdssChunk (N - (m - 1) * bdssChunk) < bdssChunk ∨ size < min N (m * bdssChunk)

instance (N size m : Nat) : Decidable (bdssHalt N size m) := by
  unfold bdssHalt; infer_instance

/-- The chunk size of `fetch_file` (line 497). -/
def dlChunk : Nat := 65536 * 16

/-- The read/write loop of `BDSS_Interface.fetch_file` (lines 506-513).
`remaining` is the number of bytes the response still holds, `failIn` the
number of reads after which the connection raises (modeling a mid-transfer
network failure), `acc` the bytes already written to the temporary file.
Returns `Except.error acc` when the transfer died with `acc` bytes in the
temporary file, `Except.ok total` when the stream completed. -/
def dlLoop (remaining : Nat) (failIn : Option Nat) (acc : Nat) : Except Nat Nat :=
  if failIn = some 0 then Except.error acc
  else if min dlChunk remaining < dlChunk then Except.ok (acc + min dlChunk remaining)
  else dlLoop (remaining - dlChunk) (failIn.map (fun k => k - 1)) (acc + min dlChunk remaining)
termination_by remaining
decreasing_by
  simp only [dlChunk] at *
  omega

/-- The two files `fetch_file` touches: the destination path and its temporary
sibling.  A file is `some n` when it exists and holds `n` bytes. -/
structure FS where
  dest : Option Nat
  tmp : Option Nat
  deriving DecidableEq, Repr

/-- The environment of one `fetch_file` run: whether `urlopen` succeeds, the
remote content length, an optional read failure point, and whether the
`Last-Modified` header parses (a missing header makes `strptime` raise after
the rename). -/
structure DLEnv where
  connectOk : Bool
  totalBytes : Nat
  failAfterChunks : Option Nat
  lastModOk : Bool
  deriving DecidableEq, Repr

/-- `BDSS_Interface.fetch_file` (lines 479-526), as a transformer of the final
file-system state.  The temporary sibling is deleted up front (line 500),
written by the loop, and either renamed onto the destination after a complete
stream (line 517) or deleted by the exception handler (line 524); the
destination is replaced only by that rename.  A `Last-Modified` parse failure
(line 520) happens after the rename: the handler then finds no temporary file
and the destination keeps the complete download. -/
def fetch_file (env : DLEnv) (fs : FS) : FS × (Bool × String) :=
  if env.connectOk = false then
    (FS.mk fs.dest none, (false, "Error: urlopen failed"))
  else
    match dlLoop env.totalBytes env.failAfterChunks 0 with
    | Except.error _w => (FS.mk fs.dest none, (false, "Error: read failed"))
    | Except.ok total =>
      if env.lastModOk then (FS.mk (some total) none, (true, "OK"))
      else (FS.mk (some total) none, (false, "Error: strptime failed"))

/-- A message on the worker output queue: `(command, text, done)`. -/
def Msg : Type := String × String × Bool

/-- `BDSS_Interface.check_database_status` (lines 455-477), as a function of
whether the local database file exists.  The `except` arm of the source is
unreachable because `os.path.isfile` does not raise. -/
def check_database_status (db_present : Bool) : Bool × String :=
  (true, if db_present then "Using local bti.sqlite database" else "Using BDSS TAR Index API")

/-- The environment a worker runs in: the results of the two network status
checks, local database presence, the progress lines and result of a script
download, and the outcome of a document fetch (an exception when the fetch
pipeline raises). -/
structure WEnv where
  bdssStatus : Bool × String
  scriptStatus : Bool × String
  dbFileExists : Bool
  scriptProgress : List String
  scriptResult : Bool × String
  fetchResult : Except PyErr (Bool × String × Option String)

/-- `WorkerProcess.run` (lines 580-607): the list of messages the worker puts
on the output queue, in order, paired with the exception that killed the
worker, if any.  For `status`, the fourth `put` (line 596) evaluates
`check_database_status(...) + '.'`, a tuple-plus-string concatenation; its
`TypeError` kills the worker before the fourth and fifth messages are sent. -/
def worker_run (command : String) (env : WEnv) : List Msg × Option PyErr :=
  if command = "status" then
    let dbres := check_database_status env.dbFileExists
    let msgs : List Msg := [("bdss_status", (env.bdssStatus).2, false),
                            ("script_status", (env.scriptStatus).2, false),
                            ("db_status", dbres.2, true)]
    match pyAdd (PyVal.tuple [PyVal.bool dbres.1, PyVal.str dbres.2]) (PyVal.str ".") with
    | Except.error e => (msgs, some e)
    | Except.ok _ =>
      -- unreachable: Python would enqueue the concatenation and then the
      -- terminal ('status', ..., True) message
      (msgs, none)
  else if command = "fetch_script" then
    ((("fetch_script", "Retrieving script", false) :: (env.scriptProgress.map
        (fun s => (("fetch_script", s, false) : Msg)) ++
        [("fetch_script", (env.scriptResult).2, true)])), none)
  else if command = "fetch" then
    match env.fetchResult with
    | Except.ok r => ([("fetch", r.2.1, true)], none)
    | Except.error e => ([], some e)
  else ([], none)

/-- `BTIWindow.start_worker` (lines 751-757): spawn only when no worker is
registered under the command key; returns the new key set and whether a
worker was spawned. -/
def start_worker (workers : List String) (command : String) : List String × Bool :=
  if workers.contains command then (workers, false) else (workers ++ [command], true)

/-- The tail of `BTIWindow.check_output_queue` (lines 709-710): a drained
message deregisters its command key exactly when it is tagged done and the
key is registered. -/
def drainMsg (workers : List String) (m : Msg) : List String :=
  if m.2.2 = true ∧ workers.contains m.1 then workers.erase m.1 else workers

/-- Repeated polling of the output queue over a list of messages. -/
def drainAll (workers : List String) (msgs : List Msg) : List String :=
  msgs.foldl drainMsg workers

/-- A local index holding exactly U.S. Patent No. 7,654,321, used to exercise
the fetch pipeline on concrete inputs. -/
def exDbA : LocalDB :=
  LocalDB.mk [] [IndexRow.mk "7654321" "10123456" "dc1" 100 200]
    [DateCode.mk "dc1" "2009" "20090101"]

/-- A fetch environment whose documents folder already holds the cached file
for patent 7,654,321. -/
def exEnvA : FetchEnv :=
  FetchEnv.mk true exDbA (fun _ _ => IndexRes.err "api unreachable")
    ["docs/U.S. Patent No. 7,654,321.pdf"] true "Retrieved"

/-- A local index holding exactly U.S. Patent No. 1,234,567. -/
def exDbB : LocalDB :=
  LocalDB.mk [] [IndexRow.mk "1234567" "" "dc2" 5 7] [DateCode.mk "dc2" "1918" "19180101"]

/-- A fetch environment whose documents folder already holds the cached file
for patent 1,234,567. -/
def exEnvB : FetchEnv :=
  FetchEnv.mk true exDbB (fun _ _ => IndexRes.err "api unreachable")
    ["docs/U.S. Patent No. 1,234,567.pdf"] true "Retrieved"

/-- A fetch environment with no local database file, whose remote BTI API
resolves patent 1,234,567 and whose documents folder already holds the cached
file for it: a cache hit on this environment still costs one API query. -/
def exEnvD : FetchEnv :=
  FetchEnv.mk false (LocalDB.mk [] [] [])
    (fun _ _ => IndexRes.ok (some "1234567") (some "patent")
      (some (patent_url "1918" "19180101")) (some 5) (some 7))
    ["docs/U.S. Patent No. 1,234,567.pdf"] true "Retrieved"

/-- A local index whose publication 20070123456A1 was filed as application
11/987,654, used to exercise the application-declared lookup path. -/
def exDbC : LocalDB :=
  LocalDB.mk [IndexRow.mk "20070123456A1" "11987654" "dc3" 10 20] []
    [DateCode.mk "dc3" "2007" "20070510"]

/-- A concrete worker environment. -/
def exWEnv : WEnv :=
  WEnv.mk (true, "Online") (true, "OK") true ["Retrieving: 1,024 kb"] (true, "OK")
    (Except.ok (true, "Retrieved x from BDSS.", some "docs/x.pdf"))

/-- A concrete download environment that fails before the first chunk. -/
def exDLEnv : DLEnv := DLEnv.mk true 5 (some 0) true

/-- Sequencing from a normal value runs the continuation. -/
theorem exSeq_ok {α β : Type} (a : α) (k : α → Except PyErr β) :
    exSeq (Except.ok a) k = k a := rfl

/-- Sequencing from a raised exception propagates it. -/
theorem exSeq_error {α β : Type} (e : PyErr) (k : α → Except PyErr β) :
    exSeq (Except.error e) k = Except.error e := rfl

/-- Claim C10: every run of the `status` worker dies with a `TypeError` while
building its fourth queue message (the tuple returned by
`check_database_status` is concatenated with the string `'.'`), so it puts
exactly three messages on the queue and none of them is a terminal message
keyed `status`. -/
theorem C10_status_worker_typeerror (env : WEnv) :
    (worker_run "status" env).2 = some PyErr.typeError ∧
    (worker_run "status" env).1.length = 3 ∧
    ∀ m ∈ (worker_run "status" env).1, ¬ (m.1 = "status" ∧ m.2.2 = true) := by
  refine ⟨rfl, rfl, ?_⟩
  intro m hm
  have hm' : m = ("bdss_status", (env.bdssStatus).2, false) ∨
      m = ("script_status", (env.scriptStatus).2, false) ∨
      m = ("db_status", (check_database_status env.dbFileExists).2, true) := by
    simp only [worker_run, pyAdd] at hm
    simpa using hm
  rcases hm' with h | h | h <;> subst h <;> simp

/-- Witness for C10 at a concrete worker environment. -/
theorem C10_witness :
    (worker_run "status" exWEnv).2 = some PyErr.typeError ∧
    (worker_run "status" exWEnv).1.length = 3 ∧
    ∀ m ∈ (worker_run "status" exWEnv).1, ¬ (m.1 = "status" ∧ m.2.2 = true) :=
  C10_status_worker_typeerror exWEnv

/-- Claim C7, failing input: the design-application branch of
`format_application_number` zero-pads `123456` to itself and then emits
slices `[0:3]` and `[4:6]`, producing `29/123,56` — the fourth padded digit
is dropped, instead of the documented `29/123,456`.  The canonical
(separator-stripped) key likewise comes out as the 7-digit `2912356`. -/
theorem C7_design_digit_dropped :
    format_application_number "D123456" true = Except.ok "29/123,56" ∧
    format_application_number "D123456" false = Except.ok "2912356" ∧
    "29/123,56" ≠ "29/123,456" := by
  refine ⟨rfl, rfl, by decide⟩

/-- Claim C3, failing inputs.  `determine_reference_type "/"` infers the
`application` type (the raw input contains a slash), reduces the input to the
empty string, and `format_application_number` then raises `IndexError` on
`number[0]` — an uncontrolled exception, which also escapes `fetch`.
Moreover, when normalization does fail gracefully (input `"ZZZ"` returns the
`(False, None, None)` triple), `fetch` tests `result is None` against the
returned `False`, so the failure does not become the documented error
message: the `None` reference flows into the database lookup and raises
`AttributeError` (`None.replace`). -/
theorem C3_normalization_crash :
    determine_reference_type "/" none = Except.error PyErr.indexError ∧
    fetch exEnvA "docs" "/" none = Except.error PyErr.indexError ∧
    determine_reference_type "ZZZ" none = Except.ok (false, none, none) ∧
    fetch exEnvA "docs" "ZZZ" none = Except.error PyErr.attributeError :=
  ⟨rfl, rfl, rfl, rfl⟩

/-- Claim C4, counterexample.  For the publication 2016/0123456 the computed
filename keeps the full canonical digits-plus-kind-code body
(`20160123456A1`), not the claimed `YYYY/NNNNNNN` form without the kind
suffix; and for the lowercase document type `application` (the only spelling
the rest of the program produces) no filename is computed at all, because the
source compares against the capitalized `'Application'`. -/
theorem C4_counterexample :
    determine_local_filename "20160123456" "publication" =
      Except.ok (some "U.S. Pub. No. 20160123456A1.pdf") ∧
    "U.S. Pub. No. 20160123456A1.pdf" ≠ "U.S. Pub. No. 2016/0123456.pdf" ∧
    determine_local_filename "10123456" "application" = Except.ok none := by
  refine ⟨rfl, by decide, rfl⟩

/-- Claim C4 as amended: the local filename is a pure function of the
document type and the per-type formatter output — patents use the
comma-grouped human-readable number, publications use the canonical
digits-plus-kind-suffix form (`human_readable = False`), and the lowercase
type `application` always yields `None` because the source branch tests the
capitalized string `'Application'`. -/
theorem C4_local_filename (ref : String) :
    (∀ r, format_patent_number ref true = some r →
        determine_local_filename ref "patent" =
          Except.ok (some ("U.S. Patent No. " ++ r ++ ".pdf"))) ∧
    (∀ r, format_publication_number ref false = some r →
        determine_local_filename ref "publication" =
          Except.ok (some ("U.S. Pub. No. " ++ r ++ ".pdf"))) ∧
    determine_local_filename ref "application" = Except.ok none := by
  refine ⟨?_, ?_, rfl⟩ <;> intro r h <;> simp [determine_local_filename, h]

/-- Witness for C4 at concrete inputs. -/
theorem C4_witness :
    determine_local_filename "7654321" "patent" =
      Except.ok (some "U.S. Patent No. 7,654,321.pdf") ∧
    determine_local_filename "7654321" "application" = Except.ok none :=
  ⟨(C4_local_filename "7654321").1 "7,654,321" rfl, (C4_local_filename "7654321").2.2⟩

/-- Claim C5, counterexample.  After starting a `status` worker and draining
every message it ever emits, the `status` key is still registered as running:
the only terminal (`done = true`) message the worker produced is keyed
`db_status`, and draining it does not return the `status` key to idle. -/
theorem C5_counterexample :
    drainAll (start_worker [] "status").1 (worker_run "status" exWEnv).1 = ["status"] ∧
    ((worker_run "status" exWEnv).1.filter (fun m => m.2.2)).map (fun m => m.1) =
      ["db_status"] :=
  ⟨rfl, rfl⟩

/-- Draining messages that are not tagged done leaves the worker registry
unchanged. -/
theorem drainAll_of_no_done (l : List Msg) (ws : List String)
    (h : ∀ m ∈ l, m.2.2 = false) : drainAll ws l = ws := by
  induction l generalizing ws with
  | nil => rfl
  | cons m rest ih =>
    have hm : m.2.2 = false := h m (List.mem_cons_self m rest)
    have hstep : drainMsg ws m = ws := by
      unfold drainMsg
      rw [if_neg]
      rintro ⟨h1, -⟩
      rw [hm] at h1
      exact Bool.false_ne_true h1
    calc drainAll ws (m :: rest) = drainAll (drainMsg ws m) rest := rfl
      _ = drainAll ws rest := by rw [hstep]
      _ = ws := ih ws (fun x hx => h x (List.mem_cons_of_mem m hx))

/-- Progress messages never count as terminal. -/
theorem countP_progress (c : String) (l : List String) :
    (l.map (fun s => ((c, s, false) : Msg))).countP (fun m => m.2.2) = 0 := by
  induction l with
  | nil => rfl
  | cons s rest ih => simpa [List.countP_cons] using ih

/-- Claim C5 as amended.  Starting a command key that already has a live
worker is a no-op.  A `fetch` worker whose pipeline returns (rather than
raises) and a `fetch_script` worker each emit exactly one terminal message,
keyed by their own command, and draining their messages returns the key to
idle.  The `status` worker, however, emits its single terminal message under
the key `db_status` (and then dies in a `TypeError`), so draining everything
it emits leaves the `status` key registered forever. -/
theorem C5_dispatcher (env : WEnv) :
    (∀ ws c, ws.contains c = true → start_worker ws c = (ws, false)) ∧
    (∀ r, env.fetchResult = Except.ok r →
       (worker_run "fetch" env).1.countP (fun m => m.2.2) = 1 ∧
       (∀ m ∈ (worker_run "fetch" env).1, m.2.2 = true → m.1 = "fetch") ∧
       drainAll ["fetch"] (worker_run "fetch" env).1 = []) ∧
    ((worker_run "fetch_script" env).1.countP (fun m => m.2.2) = 1 ∧
     (∀ m ∈ (worker_run "fetch_script" env).1, m.2.2 = true → m.1 = "fetch_script") ∧
     drainAll ["fetch_script"] (worker_run "fetch_script" env).1 = []) ∧
    ((worker_run "status" env).1.countP (fun m => m.2.2) = 1 ∧
     (∀ m ∈ (worker_run "status" env).1, m.2.2 = true → m.1 = "db_status") ∧
     drainAll ["status"] (worker_run "status" env).1 = ["status"]) := by
  have hfsmsgs : (worker_run "fetch_script" env).1 =
      (("fetch_script", "Retrieving script", false) : Msg) ::
        (env.scriptProgress.map (fun s => (("fetch_script", s, false) : Msg)) ++
          [("fetch_script", (env.scriptResult).2, true)]) := rfl
  refine ⟨?_, ?_, ⟨?_, ?_, ?_⟩, rfl, ?_, rfl⟩
  · intro ws c hc
    unfold start_worker
    rw [if_pos hc]
  · intro r hr
    have hrun : worker_run "fetch" env = ([("fetch", r.2.1, true)], none) := by
      show (if ("fetch" : String) = "status" then _ else _) = _
      rw [if_neg (by decide), if_neg (by decide), if_pos rfl, hr]
    rw [hrun]
    refine ⟨rfl, ?_, rfl⟩
    intro m hm _
    have : m = ("fetch", r.2.1, true) := by simpa using hm
    rw [this]
  · rw [hfsmsgs]
    have h := countP_progress "fetch_script" env.scriptProgress
    simp [List.countP_cons, List.countP_append, h]
  · intro m hm hdone
    rw [hfsmsgs] at hm
    have hm' : m = ("fetch_script", "Retrieving script", false) ∨
        (∃ s ∈ env.scriptProgress, ("fetch_script", s, false) = m) ∨
        m = ("fetch_script", (env.scriptResult).2, true) := by
      simpa [List.mem_cons, List.mem_append, List.mem_map, or_assoc] using hm
    rcases hm' with h | ⟨s, -, h⟩ | h
    · rw [h]
    · rw [← h]
    · rw [h]
  · rw [hfsmsgs]
    have hprog : ∀ m ∈ env.scriptProgress.map (fun s => (("fetch_script", s, false) : Msg)),
        m.2.2 = false := by
      intro m hm
      obtain ⟨s, -, hs⟩ := List.mem_map.mp hm
      rw [← hs]
    have e1 : drainAll ["fetch_script"] ((("fetch_script", "Retrieving script", false) : Msg) ::
        (env.scriptProgress.map (fun s => (("fetch_script", s, false) : Msg)) ++
          [("fetch_script", (env.scriptResult).2, true)])) =
        drainAll ["fetch_script"]
          (env.scriptProgress.map (fun s => (("fetch_script", s, false) : Msg)) ++
            [("fetch_script", (env.scriptResult).2, true)]) := rfl
    rw [e1]
    have e2 : drainAll ["fetch_script"]
        (env.scriptProgress.map (fun s => (("fetch_script", s, false) : Msg)) ++
          [("fetch_script", (env.scriptResult).2, true)]) =
        drainAll (drainAll ["fetch_script"]
          (env.scriptProgress.map (fun s => (("fetch_script", s, false) : Msg))))
          [("fetch_script", (env.scriptResult).2, true)] := by
      simp only [drainAll, List.foldl_append]
    rw [e2, drainAll_of_no_done _ ["fetch_script"] hprog]
    rfl
  · intro m hm hdone
    have hm' : m = ("bdss_status", (env.bdssStatus).2, false) ∨
        m = ("script_status", (env.scriptStatus).2, false) ∨
        m = ("db_status", (check_database_status env.dbFileExists).2, true) := by
      simpa [worker_run, pyAdd] using hm
    rcases hm' with h | h | h <;> rw [h] at hdone ⊢
    · exact absurd hdone Bool.false_ne_true
    · exact absurd hdone Bool.false_ne_true

/-- Witness for C5 at a concrete worker environment, with the fetch pipeline
returning normally. -/
theorem C5_witness :
    (worker_run "fetch" exWEnv).1.countP (fun m => m.2.2) = 1 ∧
    drainAll ["fetch"] (worker_run "fetch" exWEnv).1 = [] ∧
    drainAll ["status"] (worker_run "status" exWEnv).1 = ["status"] := by
  obtain ⟨-, hf, -, hs⟩ := C5_dispatcher exWEnv
  obtain ⟨h1, -, h3⟩ := hf (true, "Retrieved x from BDSS.", some "docs/x.pdf") rfl
  exact ⟨h1, h3, hs.2.2⟩

/-- Claim C1, counterexample.  The documents folder of `exEnvA` already holds
the computed cache file for patent 7,654,321, and the fetch does return
success with the `already exists` message — but its call log records one
local-index lookup (`dbQueries = 1`): the resolver runs before the cache
check, so the cache hit does not prevent the index resolution the claim says
is skipped (with no local database this query is a remote API call, i.e.
network activity). -/
theorem C1_counterexample :
    exEnvA.cacheFiles.contains "docs/U.S. Patent No. 7,654,321.pdf" = true ∧
    fetch exEnvA "docs" "7654321" none =
      Except.ok ((true, "Patent 7654321 already exists.",
        some "docs/U.S. Patent No. 7,654,321.pdf"), CallLog.mk 1 0 0) :=
  ⟨rfl, rfl⟩

/-- Claim C1 as amended: when normalization succeeds, the index resolution
succeeds, and the computed cache file already exists in the documents folder,
`fetch` returns success with the `already exists` message and never invokes
the document fetcher — but the index resolver has already been invoked
exactly once before the cache check: one local database lookup when
`bti.sqlite` is present (first conjunct, `dbQueries = 1`), and otherwise one
remote API query, i.e. network activity, despite the cache hit (second
conjunct, `apiQueries = 1`). -/
theorem C1_fetch_cache_hit (env : FetchEnv) (docs ref : String) (dt0 : Option String)
    (b : Bool) (rr t rr2 t2 f : String) (u : Option String) (o sz : Option Nat)
    (h1 : determine_reference_type ref dt0 = Except.ok (b, some rr, some t))
    (h4 : determine_local_filename rr2 t2 = Except.ok (some f))
    (h5 : env.cacheFiles.contains (docs ++ "/" ++ f) = true) :
    (∀ probes : List (String × String), env.dbFileExists = true →
      retrieve_ref_from_database (some rr) (some t) env.db =
        Except.ok (IndexRes.ok (some rr2) (some t2) u o sz, probes) →
      fetch env docs ref dt0 =
        Except.ok ((true, pyTitle t2 ++ " " ++ ref ++ " already exists.",
          some (docs ++ "/" ++ f)), CallLog.mk 1 0 0)) ∧
    (env.dbFileExists = false →
      env.api (some rr) (some t) = IndexRes.ok (some rr2) (some t2) u o sz →
      fetch env docs ref dt0 =
        Except.ok ((true, pyTitle t2 ++ " " ++ ref ++ " already exists.",
          some (docs ++ "/" ++ f)), CallLog.mk 0 1 0)) := by
  constructor
  · intro probes h2 h3
    simp only [fetch, h1, h2, h3, h4, h5, exSeq_ok, if_true]
  · intro h2 h3
    simp only [fetch, h1, h2, h3, h4, h5, exSeq_ok, Bool.false_eq_true, if_false, if_true]

/-- Witness for C1 at two concrete environments holding the cached file for
patent 1,234,567: with a local database (`exEnvB`) the cache hit still costs
one database query, and without one (`exEnvD`) it still costs one remote API
query. -/
theorem C1_witness :
    fetch exEnvB "docs" "1234567" none =
      Except.ok ((true, pyTitle "patent" ++ " " ++ "1234567" ++ " already exists.",
        some ("docs" ++ "/" ++ "U.S. Patent No. 1,234,567.pdf")), CallLog.mk 1 0 0) ∧
    fetch exEnvD "docs" "1234567" none =
      Except.ok ((true, pyTitle "patent" ++ " " ++ "1234567" ++ " already exists.",
        some ("docs" ++ "/" ++ "U.S. Patent No. 1,234,567.pdf")), CallLog.mk 0 1 0) :=
  ⟨(C1_fetch_cache_hit exEnvB "docs" "1234567" none true "1234567" "patent" "1234567"
      "patent" "U.S. Patent No. 1,234,567.pdf" (some (patent_url "1918" "19180101"))
      (some 5) (some 7) rfl rfl rfl).1 [("patents", "number")] rfl rfl,
   (C1_fetch_cache_hit exEnvD "docs" "1234567" none true "1234567" "patent" "1234567"
      "patent" "U.S. Patent No. 1,234,567.pdf" (some (patent_url "1918" "19180101"))
      (some 5) (some 7) rfl rfl rfl).2 rfl rfl⟩

/-- Claim C2: the local-index lookup order.  For a declared `application` the
publications table is probed first on its `application_number` column; the
patents table is probed (on its `application_number` column) only when that
probe misses; the resolved type is that of the table that produced the hit,
so a found reference always comes back as `publication` or `patent`.  For a
declared `publication` only the publications table is probed, on its native
`number` column (a miss does not fall through to the patents table).  For a
declared `patent` only the patents table is probed, on its native `number`
column. -/
theorem C2_lookup_order (db : LocalDB) (ref : String) :
    (lookupRow db.publications db.date_codes true (removeCommaSlash ref) = none →
      lookupRow db.patents db.date_codes true (removeCommaSlash ref) = none →
      retrieve_ref_from_database (some ref) (some "application") db =
        Except.ok (IndexRes.err ("No data found for " ++ ref ++ "."),
          [("publications", "application_number"), ("patents", "application_number")])) ∧
    (∀ n y d o sz,
      lookupRow db.publications db.date_codes true (removeCommaSlash ref) = some (n, y, d, o, sz) →
      retrieve_ref_from_database (some ref) (some "application") db =
        Except.ok (IndexRes.ok (some n) (some "publication") (some (publication_url y d))
          (some o) (some sz), [("publications", "application_number")])) ∧
    (∀ n y d o sz,
      lookupRow db.publications db.date_codes true (removeCommaSlash ref) = none →
      lookupRow db.patents db.date_codes true (removeCommaSlash ref) = some (n, y, d, o, sz) →
      retrieve_ref_from_database (some ref) (some "application") db =
        Except.ok (IndexRes.ok (some n) (some "patent") (some (patent_url y d))
          (some o) (some sz),
          [("publications", "application_number"), ("patents", "application_number")])) ∧
    (lookupRow db.publications db.date_codes false (removeCommaSlash ref) = none →
      retrieve_ref_from_database (some ref) (some "publication") db =
        Except.ok (IndexRes.err ("No data found for " ++ ref ++ "."),
          [("publications", "number")])) ∧
    (∀ n y d o sz,
      lookupRow db.publications db.date_codes false (removeCommaSlash ref) = some (n, y, d, o, sz) →
      retrieve_ref_from_database (some ref) (some "publication") db =
        Except.ok (IndexRes.ok (some n) (some "publication") (some (publication_url y d))
          (some o) (some sz), [("publications", "number")])) ∧
    (lookupRow db.patents db.date_codes false (removeCommaSlash ref) = none →
      retrieve_ref_from_database (some ref) (some "patent") db =
        Except.ok (IndexRes.err ("No data found for " ++ ref ++ "."),
          [("patents", "number")])) ∧
    (∀ n y d o sz,
      lookupRow db.patents db.date_codes false (removeCommaSlash ref) = some (n, y, d, o, sz) →
      retrieve_ref_from_database (some ref) (some "patent") db =
        Except.ok (IndexRes.ok (some n) (some "patent") (some (patent_url y d))
          (some o) (some sz), [("patents", "number")])) := by
  refine ⟨?_, ?_, ?_, ?_, ?_, ?_, ?_⟩
  · intro hp hq
    simp [retrieve_ref_from_database, matchColumn, hp, hq]
  · intro n y d o sz hp
    simp [retrieve_ref_from_database, matchColumn, hp]
  · intro n y d o sz hp hq
    simp [retrieve_ref_from_database, matchColumn, hp, hq]
  · intro hp
    simp [retrieve_ref_from_database, matchColumn, hp]
  · intro n y d o sz hp
    simp [retrieve_ref_from_database, matchColumn, hp]
  · intro hq
    simp [retrieve_ref_from_database, matchColumn, hq]
  · intro n y d o sz hq
    simp [retrieve_ref_from_database, matchColumn, hq]

/-- Witness for C2: a publication filed as application 11/987,654 is found in
the publications table on the first probe, and the declared `application`
type is resolved as `publication`. -/
theorem C2_witness :
    retrieve_ref_from_database (some "11/987,654") (some "application") exDbC =
      Except.ok (IndexRes.ok (some "20070123456A1") (some "publication")
        (some (publication_url "2007" "20070510")) (some 10) (some 20),
        [("publications", "application_number")]) :=
  (C2_lookup_order exDbC "11/987,654").2.1 "20070123456A1" "2007" "20070510" 10 20 rfl

/-- A completed download loop has transferred every remaining byte: the
stream is read to its end before the loop reports success. -/
theorem dlLoop_ok_total (r : Nat) :
    ∀ f a t, dlLoop r f a = Except.ok t → t = a + r := by
  induction r using Nat.strong_induction_on with
  | _ r ih =>
    intro f a t h
    rw [dlLoop] at h
    split at h
    · exact absurd h (by simp)
    · split at h
      · rename_i hshort
        have hr : min dlChunk r = r := by
          simp only [dlChunk] at hshort ⊢
          omega
        rw [hr] at h
        simpa using h.symm
      · rename_i hfull
        have hlt : r - dlChunk < r := by
          simp only [dlChunk] at hfull ⊢
          omega
        have := ih (r - dlChunk) hlt _ _ _ h
        simp only [dlChunk] at hfull this ⊢
        omega

/-- Claim C6: whole-file download atomicity.  After any run of `fetch_file`
no temporary file remains; the destination either still holds exactly what it
held before or holds the complete download (never a partial write); a
successful run always leaves the complete download at the destination; and a
transfer that dies mid-stream (the read loop raises) leaves the destination
unchanged — in particular, when no destination file existed before, none
exists afterwards — and reports failure. -/
theorem C6_download_atomicity (env : DLEnv) (fs : FS) :
    (fetch_file env fs).1.tmp = none ∧
    ((fetch_file env fs).1.dest = fs.dest ∨
      (fetch_file env fs).1.dest = some env.totalBytes) ∧
    ((fetch_file env fs).2.1 = true → (fetch_file env fs).1.dest = some env.totalBytes) ∧
    (∀ w, dlLoop env.totalBytes env.failAfterChunks 0 = Except.error w → fs.dest = none →
       ((fetch_file env fs).1.dest = none ∧ (fetch_file env fs).2.1 = false)) := by
  unfold fetch_file
  rcases hconn : env.connectOk with _ | _
  · simp
  · simp only [Bool.true_eq_false, if_false]
    rcases hloop : dlLoop env.totalBytes env.failAfterChunks 0 with w | total
    · simp
    · have htot : total = env.totalBytes := by
        simpa using dlLoop_ok_total env.totalBytes env.failAfterChunks 0 total hloop
      rcases hlm : env.lastModOk with _ | _ <;>
        simp [htot]

/-- Witness for C6 at a concrete environment: the connection fails before the
first chunk, the destination did not exist, and afterwards neither the
destination nor the temporary file exists. -/
theorem C6_witness :
    (fetch_file exDLEnv (FS.mk none (some 7))).1.tmp = none ∧
    ((fetch_file exDLEnv (FS.mk none (some 7))).1.dest = (FS.mk none (some 7)).dest ∨
      (fetch_file exDLEnv (FS.mk none (some 7))).1.dest = some exDLEnv.totalBytes) ∧
    ((fetch_file exDLEnv (FS.mk none (some 7))).2.1 = true →
      (fetch_file exDLEnv (FS.mk none (some 7))).1.dest = some exDLEnv.totalBytes) ∧
    (∀ w, dlLoop exDLEnv.totalBytes exDLEnv.failAfterChunks 0 = Except.error w →
      (FS.mk none (some 7)).dest = none →
      ((fetch_file exDLEnv (FS.mk none (some 7))).1.dest = none ∧
        (fetch_file exDLEnv (FS.mk none (some 7))).2.1 = false)) :=
  C6_download_atomicity exDLEnv (FS.mk none (some 7))

/-- Invariant run of the BDSS read loop: entering the loop with `c` full
chunks already transferred (so `written = received = c * bdssChunk` and
`remaining = N - c * bdssChunk` bytes left of an `N`-byte range response),
the loop stops after some `k > c` chunks with the file size equal to the
cumulative bytes received, `min N (k * bdssChunk)`; the stop index `k` is the
first index from `c` on at which the break condition `bdssHalt` holds. -/
theorem bdssLoop_run (size N : Nat) :
    ∀ remaining c, remaining = N - c * bdssChunk → c * bdssChunk ≤ N →
    ∃ k, c < k ∧
      bdssLoop size remaining (c * bdssChunk) (c * bdssChunk) c =
        (min N (k * bdssChunk), min N (k * bdssChunk), k) ∧
      bdssHalt N size k ∧ (∀ m, c < m → m < k → ¬ bdssHalt N size m) := by
  intro remaining
  induction remaining using Nat.strong_induction_on with
  | _ remaining ih =>
    intro c hrem hle
    rw [bdssLoop]
    by_cases hbreak : min bdssChunk remaining < bdssChunk ∨ size < (c + 1) * bdssChunk
    · rw [if_pos hbreak]
      have hw : (if 0 < min bdssChunk remaining
            then c * bdssChunk + min bdssChunk remaining else c * bdssChunk) =
          min N ((c + 1) * bdssChunk) := by
        split <;> (simp only [bdssChunk] at *; omega)
      have hv : c * bdssChunk + min bdssChunk remaining = min N ((c + 1) * bdssChunk) := by
        simp only [bdssChunk] at *
        omega
      refine ⟨c + 1, Nat.lt_succ_self c, ?_, ?_, ?_⟩
      · rw [hw, hv]
      · by_cases hshort : min bdssChunk remaining < bdssChunk
        · left
          have hrw : N - (c + 1 - 1) * bdssChunk = remaining := by
            simp only [bdssChunk] at *; omega
          rw [hrw]
          exact hshort
        · right
          rcases hbreak with h | h
          · exact absurd h hshort
          · simp only [bdssChunk] at *
            omega
      · intro m h1 h2
        omega
    · rw [if_neg hbreak]
      push_neg at hbreak
      obtain ⟨hfull, hsz⟩ := hbreak
      have hd : 0 < min bdssChunk remaining := by
        simp only [bdssChunk] at *; omega
      rw [if_pos hd]
      have hmin : min bdssChunk remaining = bdssChunk := by
        simp only [bdssChunk] at *; omega
      rw [hmin]
      have hacc : c * bdssChunk + bdssChunk = (c + 1) * bdssChunk := by ring
      rw [hacc]
      obtain ⟨k, hk1, hk2, hk3, hk4⟩ := ih (remaining - bdssChunk)
        (by simp only [bdssChunk] at *; omega) (c + 1)
        (by simp only [bdssChunk] at *; omega)
        (by simp only [bdssChunk] at *; omega)
      refine ⟨k, by omega, hk2, hk3, ?_⟩
      intro m h1 h2
      by_cases hm : m = c + 1
      · subst hm
        simp only [bdssHalt, bdssChunk] at *
        omega
      · exact hk4 m (by omega) h2

/-- Claim C9: the `retrieve_document_from_bdss` read loop.  Over an `N`-byte
range response and a declared document `size`, the loop (a total function —
its very definition witnesses termination, including on a short final chunk)
stops after exactly `k` chunks, where `k` is the first index at which either
chunk `k` was short or the cumulative bytes read exceed `size` (`bdssHalt`);
and the number of bytes written to the local file (first component) equals
the total number of bytes received (second component). -/
theorem C9_range_loop (N size : Nat) :
    ∃ k, 0 < k ∧
      bdssLoop size N 0 0 0 = (min N (k * bdssChunk), min N (k * bdssChunk), k) ∧
      bdssHalt N size k ∧ (∀ m, 0 < m → m < k → ¬ bdssHalt N size m) := by
  have h := bdssLoop_run size N N 0 (by simp) (by simp)
  simpa using h

/-- Witness for C9 on a concrete 100-byte response with declared size 100. -/
theorem C9_witness :
    ∃ k, 0 < k ∧
      bdssLoop 100 100 0 0 0 = (min 100 (k * bdssChunk), min 100 (k * bdssChunk), k) ∧
      bdssHalt 100 100 k ∧ (∀ m, 0 < m → m < k → ¬ bdssHalt 100 100 m) :=
  C9_range_loop 100 100

/-- The code-point bounds behind `pyIsDigit`. -/
theorem digit_bounds {c : Char} (h : pyIsDigit c = true) : 48 ≤ c.toNat ∧ c.toNat ≤ 57 := by
  simpa [pyIsDigit] using h

/-- A digit differs from any character whose code point is not a digit. -/
theorem ne_of_digit {c : Char} (h : pyIsDigit c = true) (d : Char)
    (hd : ¬ (48 ≤ d.toNat ∧ d.toNat ≤ 57)) : c ≠ d := by
  intro he
  subst he
  exact hd (digit_bounds h)

/-- Uppercasing fixes digits. -/
theorem digit_pyUpperChar {c : Char} (h : pyIsDigit c = true) : pyUpperChar c = c := by
  obtain ⟨h1, h2⟩ := digit_bounds h
  unfold pyUpperChar
  rw [if_neg]
  omega

/-- Digits are not whitespace. -/
theorem digit_not_space {c : Char} (h : pyIsDigit c = true) : isPySpace c = false := by
  obtain ⟨h1, h2⟩ := digit_bounds h
  simp only [isPySpace]
  rw [decide_eq_false_iff_not]
  rintro (rfl | rfl | rfl | rfl | rfl | rfl) <;> exact absurd h1 (by decide)

/-- Uppercasing maps an all-digit list to itself. -/
theorem map_pyUpperChar_digits (l : List Char) (h : ∀ c ∈ l, pyIsDigit c = true) :
    l.map pyUpperChar = l := by
  induction l with
  | nil => rfl
  | cons c rest ih =>
    rw [List.map_cons, digit_pyUpperChar (h c (List.mem_cons_self c rest)),
      ih (fun d hdm => h d (List.mem_cons_of_mem c hdm))]

/-- Whitespace removal fixes an all-digit list. -/
theorem stripWs_digits (l : List Char) (h : ∀ c ∈ l, pyIsDigit c = true) :
    stripWs l = l := by
  unfold stripWs
  induction l with
  | nil => rfl
  | cons c rest ih =>
    rw [List.filter_cons]
    rw [if_pos (by simp [digit_not_space (h c (List.mem_cons_self c rest))]),
      ih (fun d hdm => h d (List.mem_cons_of_mem c hdm))]

/-- The regex strip of `U`, `S`, `B`+digits, periods, slashes and commas fixes
an all-digit list. -/
theorem reduceAux_digits (b : Bool) (l : List Char) (h : ∀ c ∈ l, pyIsDigit c = true) :
    reduceAux b false l = l := by
  induction l with
  | nil => rfl
  | cons c rest ih =>
    have hc := h c (List.mem_cons_self c rest)
    unfold reduceAux
    rw [if_neg (by simp), if_neg, if_neg]
    · rw [ih (fun d hdm => h d (List.mem_cons_of_mem c hdm))]
    · rintro ⟨-, hB, -⟩
      exact ne_of_digit hc 'B' (by decide) hB
    · rintro (hU | hS | hP | hSl | hC)
      · exact ne_of_digit hc 'U' (by decide) hU
      · exact ne_of_digit hc 'S' (by decide) hS
      · exact ne_of_digit hc '.' (by decide) hP
      · exact ne_of_digit hc '/' (by decide) hSl
      · exact ne_of_digit hc ',' (by decide) hC

/-- The full reduction of `bti.py` fixes an all-digit string. -/
theorem reduceRef_digits (b : Bool) (s : String) (h : ∀ c ∈ s.data, pyIsDigit c = true) :
    reduceRef b s = s := by
  unfold reduceRef
  rw [map_pyUpperChar_digits s.data h, stripWs_digits s.data h, reduceAux_digits b s.data h]

/-- `takeWhile` keeps an all-digit list whole. -/
theorem takeWhile_digits (l : List Char) (h : ∀ c ∈ l, pyIsDigit c = true) :
    l.takeWhile pyIsDigit = l := by
  induction l with
  | nil => rfl
  | cons c rest ih =>
    rw [List.takeWhile_cons, if_pos (h c (List.mem_cons_self c rest)),
      ih (fun d hdm => h d (List.mem_cons_of_mem c hdm))]

/-- On input starting with a digit, the patent-number regex matches at the
very first position with the empty prefix and the leading digit run. -/
theorem pnSearch_digit_lead (c : Char) (rest : List Char) (hc : pyIsDigit c = true) :
    pnSearch (c :: rest) = some ("", (c :: rest).takeWhile pyIsDigit) := by
  have hD := ne_of_digit hc 'D' (by decide)
  have hP := ne_of_digit hc 'P' (by decide)
  have hR := ne_of_digit hc 'R' (by decide)
  have hH := ne_of_digit hc 'H' (by decide)
  have hT := ne_of_digit hc 'T' (by decide)
  have hX := ne_of_digit hc 'X' (by decide)
  have hA := ne_of_digit hc 'A' (by decide)
  have htry : pnTryAt (c :: rest) = some ("", (c :: rest).takeWhile pyIsDigit) := by
    unfold pnTryAt
    have hnone : pnAlternatives.findSome? (fun p =>
        if (c :: rest).take p.length = p ∧ digitLeads ((c :: rest).drop p.length) then
          some (String.mk p, ((c :: rest).drop p.length).takeWhile pyIsDigit)
        else none) = none := by
      simp only [pnAlternatives, List.findSome?]
      rw [if_neg, if_neg, if_neg, if_neg, if_neg, if_neg, if_neg, if_neg] <;>
        (rintro ⟨h1, -⟩; simp only [List.length_cons, List.length_nil, List.length_singleton,
          List.take_succ_cons, List.take_zero, List.cons.injEq] at h1)
      · exact hA h1.1
      · exact hR h1.1
      · exact hX h1.1
      · exact hT h1.1
      · exact hH h1.1
      · exact hR h1.1
      · exact hP h1.1
      · exact hD h1.1
    rw [hnone]
    rw [if_pos]
    show pyIsDigit c = true
    exact hc
  unfold pnSearch
  rw [htry]

/-- On a nonempty all-digit canonical key, the patent formatter succeeds and
returns the digits printed as a plain integer (no prefix). -/
theorem format_patent_number_digits (s : String) (h : ∀ c ∈ s.data, pyIsDigit c = true)
    (hne : s.data ≠ []) :
    format_patent_number s false = some (toString (digitsToNat s.data)) := by
  unfold format_patent_number
  rw [reduceRef_digits true s h]
  dsimp only
  obtain ⟨c, rest, hcons⟩ : ∃ c rest, s.data = c :: rest := by
    cases hx : s.data with
    | nil => exact absurd hx hne
    | cons c rest => exact ⟨c, rest, rfl⟩
  rw [hcons, pnSearch_digit_lead c rest (h c (by rw [hcons]; exact List.mem_cons_self c rest)),
    takeWhile_digits (c :: rest) (by rw [← hcons]; exact h)]
  rfl

/-- Splitting an all-digit string at 2 and 5 and stripping the inserted
separators gives the string back. -/
theorem stripSlashComma_slices (s : String) (h : ∀ c ∈ s.data, pyIsDigit c = true) :
    stripSlashComma (pySlice s 0 2 ++ "/" ++ pySlice s 2 5 ++ "," ++ pySliceFrom s 5) = s := by
  unfold stripSlashComma pySlice pySliceFrom
  have hmk : ∀ l1 l2 : List Char, (String.mk l1 ++ String.mk l2 : String) = String.mk (l1 ++ l2) :=
    fun l1 l2 => rfl
  have hslash : ("/" : String) = String.mk ['/'] := rfl
  have hcomma : ("," : String) = String.mk [','] := rfl
  rw [hslash, hcomma, hmk, hmk, hmk, hmk]
  have hfilter : ∀ (l : List Char), (∀ c ∈ l, pyIsDigit c = true) →
      ∀ t : List Char, (l ++ t).filter (fun c => decide (c ≠ '/' ∧ c ≠ ',')) =
        l ++ t.filter (fun c => decide (c ≠ '/' ∧ c ≠ ',')) := by
    intro l hl t
    rw [List.filter_append]
    have : l.filter (fun c => decide (c ≠ '/' ∧ c ≠ ',')) = l := by
      rw [List.filter_eq_self]
      intro c hcm
      have h1 := ne_of_digit (hl c hcm) '/' (by decide)
      have h2 := ne_of_digit (hl c hcm) ',' (by decide)
      simp [h1, h2]
    rw [this]
  have hd0 : s.data.drop 0 = s.data := List.drop_zero s.data
  rw [hd0]
  have assoc1 : s.data.take 2 ++ ['/'] ++ (s.data.drop 2).take 3 ++ [','] ++ s.data.drop 5 =
      s.data.take 2 ++ (['/'] ++ ((s.data.drop 2).take 3 ++ ([','] ++ s.data.drop 5))) := by
    simp [List.append_assoc]
  rw [assoc1]
  rw [hfilter (s.data.take 2) (fun c hcm => h c (List.take_subset 2 s.data hcm))]
  have hsl : (['/'] ++ ((s.data.drop 2).take 3 ++ ([','] ++ s.data.drop 5))).filter
      (fun c => decide (c ≠ '/' ∧ c ≠ ',')) =
      ((s.data.drop 2).take 3 ++ ([','] ++ s.data.drop 5)).filter
        (fun c => decide (c ≠ '/' ∧ c ≠ ',')) := by
    rw [List.filter_append]
    simp
  rw [hsl]
  rw [hfilter ((s.data.drop 2).take 3)
    (fun c hcm => h c (List.drop_subset 2 s.data (List.take_subset 3 (s.data.drop 2) hcm)))]
  have hcm : ([','] ++ s.data.drop 5).filter (fun c => decide (c ≠ '/' ∧ c ≠ ',')) =
      (s.data.drop 5).filter (fun c => decide (c ≠ '/' ∧ c ≠ ',')) := by
    rw [List.filter_append]
    simp
  rw [hcm]
  rw [List.filter_eq_self.mpr (fun c hcm => by
    have h1 := ne_of_digit (h c (List.drop_subset 5 s.data hcm)) '/' (by decide)
    have h2 := ne_of_digit (h c (List.drop_subset 5 s.data hcm)) ',' (by decide)
    simp [h1, h2])]
  have e1 : s.data.drop 5 = (s.data.drop 2).drop 3 := by
    rw [List.drop_drop]
  rw [e1, List.take_append_drop, List.take_append_drop]

/-- On an 8-digit canonical key, the application formatter (non human
readable) inserts the slash and comma and strips them again, returning the
key unchanged. -/
theorem format_application_number_digits8 (s : String)
    (h : ∀ c ∈ s.data, pyIsDigit c = true) (h8 : s.data.length = 8) :
    format_application_number s false = Except.ok s := by
  unfold format_application_number
  rw [reduceRef_digits false s h]
  dsimp only
  obtain ⟨c, rest, hcons⟩ : ∃ c rest, s.data = c :: rest := by
    cases hx : s.data with
    | nil => rw [hx] at h8; exact absurd h8 (by decide)
    | cons c rest => exact ⟨c, rest, rfl⟩
  rw [hcons]
  dsimp only
  have hD : c ≠ 'D' :=
    ne_of_digit (h c (by rw [hcons]; exact List.mem_cons_self c rest)) 'D' (by decide)
  rw [if_neg hD, if_pos (show s.length = 8 from h8)]
  rw [show (if (false : Bool) = true then
      pySlice s 0 2 ++ "/" ++ pySlice s 2 5 ++ "," ++ pySliceFrom s 5
    else stripSlashComma (pySlice s 0 2 ++ "/" ++ pySlice s 2 5 ++ "," ++ pySliceFrom s 5)) =
      stripSlashComma (pySlice s 0 2 ++ "/" ++ pySlice s 2 5 ++ "," ++ pySliceFrom s 5)
    from rfl]
  rw [stripSlashComma_slices s h]

/-- Claim C8: for an input with no explicit type whose reduction is exactly 8
digits, whose raw text has no slash (and which therefore carries no design
prefix letter), `determine_reference_type` classifies by the first two
digits: an integer value below 12 gives a patent (with the canonical key the
digits printed as an integer), 12 or above gives an application (with the
canonical key the 8 digits unchanged). -/
theorem C8_eight_digit_inference (ref : String)
    (h8 : (reduceRef true ref).data.length = 8)
    (hd : ∀ c ∈ (reduceRef true ref).data, pyIsDigit c = true)
    (hs : '/' ∉ ref.data) :
    (digitsToNat ((reduceRef true ref).data.take 2) < 12 →
      determine_reference_type ref none =
        Except.ok (true, some (toString (digitsToNat (reduceRef true ref).data)),
          some "patent")) ∧
    (12 ≤ digitsToNat ((reduceRef true ref).data.take 2) →
      determine_reference_type ref none =
        Except.ok (true, some (reduceRef true ref), some "application")) := by
  obtain ⟨c, rest, hcons⟩ : ∃ c rest, (reduceRef true ref).data = c :: rest := by
    cases hx : (reduceRef true ref).data with
    | nil => rw [hx] at h8; exact absurd h8 (by decide)
    | cons c rest => exact ⟨c, rest, rfl⟩
  have hlen : ¬ 11 ≤ (reduceRef true ref).length := by
    have h8' : (reduceRef true ref).length = 8 := h8
    omega
  have hnd : noDesignLetter (reduceRef true ref).data := by
    intro d hdmem he
    rw [hcons] at he
    simp only [List.head?_cons, Option.some.injEq] at he
    have hcd := hd c (by rw [hcons]; exact List.mem_cons_self c rest)
    fin_cases hdmem
    · exact ne_of_digit hcd 'P' (by decide) he
    · exact ne_of_digit hcd 'D' (by decide) he
    · exact ne_of_digit hcd 'T' (by decide) he
    · exact ne_of_digit hcd 'A' (by decide) he
    · exact ne_of_digit hcd 'R' (by decide) he
    · exact ne_of_digit hcd 'X' (by decide) he
  have hcond : (reduceRef true ref).length = 8 ∧ noDesignLetter (reduceRef true ref).data :=
    ⟨h8, hnd⟩
  have hint : pyIntL ((reduceRef true ref).data.take 2) =
      Except.ok (digitsToNat ((reduceRef true ref).data.take 2)) := by
    unfold pyIntL
    rw [if_pos]
    constructor
    · intro hnil
      have hlt := congrArg List.length hnil
      rw [List.length_take, h8] at hlt
      exact absurd hlt (by decide)
    · rw [List.all_eq_true]
      intro x hxm
      exact hd x (List.take_subset 2 _ hxm)
  have hne : (reduceRef true ref).data ≠ [] := by
    rw [hcons]
    exact List.cons_ne_nil c rest
  constructor <;> intro hv
  · simp only [determine_reference_type]
    rw [if_neg hlen, if_neg hs, if_pos hcond, hint]
    simp only [exSeq_ok]
    rw [if_neg (by omega : ¬ 12 ≤ digitsToNat (List.take 2 (reduceRef true ref).data))]
    simp only [exSeq_ok, if_true]
    rw [format_patent_number_digits (reduceRef true ref) hd hne]
  · simp only [determine_reference_type]
    rw [if_neg hlen, if_neg hs, if_pos hcond, hint]
    simp only [exSeq_ok]
    rw [if_pos hv]
    simp only [exSeq_ok, if_true]
    rw [format_application_number_digits8 (reduceRef true ref) hd h8]
    rfl

/-- Witness for C8 at the concrete 8-digit inputs 12345678 (first two digits
12, classified as an application) and 07654321 (first two digits 7,
classified as a patent). -/
theorem C8_witness :
    determine_reference_type "12345678" none =
      Except.ok (true, some (reduceRef true "12345678"), some "application") ∧
    determine_reference_type "07654321" none =
      Except.ok (true, some (toString (digitsToNat (reduceRef true "07654321").data)),
        some "patent") :=
  ⟨(C8_eight_digit_inference "12345678" (by decide) (by decide) (by decide)).2 (by decide),
   (C8_eight_digit_inference "07654321" (by decide) (by decide) (by decide)).1 (by decide)⟩
